import Mathlib

/-!
Shallow embedding of `examples/mnist/main.py` (the only source file of the
repository): a composition script that wires a small CNN, an argument parser,
and a few callback overrides into an external training framework.

Modelling conventions:

* Tensors are symbolic: `TExpr` is the free term algebra over the layer and
  functional operations the script applies.  The script never inspects tensor
  contents, so the sequence of applied operations is the whole behaviour.
* The stateful callback object `MyUnit` is modelled as a record of its
  mutable fields (`train_accuracy`, `loss`, and the logger's entry list),
  with each overridden method becoming a state-transition function.
* `argparse` is an external library; its behaviour for the exact parser the
  script builds (ten long options, exact-token matching, `--flag value` and
  `--flag=value` forms, `store_true` for `--save-model`, `choices` for
  `--precision`) is embedded directly.  Abbreviated option prefixes and the
  underscore/whitespace liberality of Python `int()`/`float()` are not
  modelled; Python float literals are read as exact rationals.
* `main` returns the configuration of every object it constructs (the run
  configuration) instead of performing the construction effects.
-/

/-- Symbolic tensor expressions: the free algebra of the operations applied by
the script.  `conv1`, `conv2`, `fc1`, `fc2`, `dropout1`, `dropout2` stand for
application of the corresponding layers of `Net`; the rest are the
`torch` / `torch.nn.functional` calls the script makes. -/
inductive TExpr where
  | input (n : Nat)
  | conv1 (x : TExpr)
  | conv2 (x : TExpr)
  | dropout1 (x : TExpr)
  | dropout2 (x : TExpr)
  | fc1 (x : TExpr)
  | fc2 (x : TExpr)
  | relu (x : TExpr)
  | maxPool2d (kernel : Nat) (x : TExpr)
  | flatten (startDim : Nat) (x : TExpr)
  | logSoftmax (dim : Nat) (x : TExpr)
  | squeeze (x : TExpr)
  | nllLoss (outputs targets : TExpr)
deriving DecidableEq

/-- A batch is a paired (input tensor, label tensor), as in
`Batch = Tuple[torch.Tensor, torch.Tensor]`. -/
def Batch := TExpr × TExpr

/-- `Net.forward`, line for line: each `x = ...` of the Python body becomes a
`let`. -/
def Net.forward (x : TExpr) : TExpr :=
  let x := TExpr.conv1 x
  let x := TExpr.relu x
  let x := TExpr.conv2 x
  let x := TExpr.relu x
  let x := TExpr.maxPool2d 2 x
  let x := TExpr.dropout1 x
  let x := TExpr.flatten 1 x
  let x := TExpr.fc1 x
  let x := TExpr.relu x
  let x := TExpr.dropout2 x
  let x := TExpr.fc2 x
  let output := TExpr.logSoftmax 1 x
  output

/-- State of the `torcheval` `MulticlassAccuracy` accumulator, abstracted to
what the script can observe: the list of `(outputs, targets)` updates since
the last reset, and how many times `reset` has been called. -/
structure MulticlassAccuracy where
  pending : List (TExpr × TExpr)
  resets : Nat
deriving DecidableEq

/-- `train_accuracy.update(outputs, targets)`: record one more update. -/
def MulticlassAccuracy.update (m : MulticlassAccuracy) (outputs targets : TExpr) :
    MulticlassAccuracy :=
  { m with pending := m.pending ++ [(outputs, targets)] }

/-- `train_accuracy.reset()`: clear the accumulated updates. -/
def MulticlassAccuracy.reset (m : MulticlassAccuracy) : MulticlassAccuracy :=
  { pending := [], resets := m.resets + 1 }

/-- A value handed to `tb_logger.log`: Python `None`, a tensor, or the result
of `train_accuracy.compute()` (determined by the accumulated updates). -/
inductive LogValue where
  | pyNone
  | tensor (t : TExpr)
  | accuracy (updates : List (TExpr × TExpr))
deriving DecidableEq

/-- The tensor-or-`None` content of `self.loss` as a `LogValue`. -/
def logVal : Option TExpr → LogValue
  | none => LogValue.pyNone
  | some t => LogValue.tensor t

/-- The mutable state of a `MyUnit` instance that the overridden methods
touch: the accuracy accumulator, `self.loss`, and (standing in for
`tb_logger`) the list of `(name, value, step)` entries logged so far. -/
structure MyUnit where
  train_accuracy : MulticlassAccuracy
  loss : Option TExpr
  logs : List (String × LogValue × Int)

/-- `MyUnit.__init__`: stores the accumulator and sets `self.loss = None`. -/
def MyUnit.init (train_accuracy : MulticlassAccuracy) : MyUnit :=
  { train_accuracy := train_accuracy, loss := none, logs := [] }

/-- `MyUnit.compute_loss`: runs the module on the inputs, squeezes, and takes
the negative log-likelihood loss; returns `(loss, outputs)`.  It reads no
mutable state and writes none. -/
def MyUnit.compute_loss (data : Batch) : TExpr × TExpr :=
  let outputs := Net.forward data.1
  let outputs := TExpr.squeeze outputs
  let loss := TExpr.nllLoss outputs data.2
  (loss, outputs)

/-- `MyUnit.update_metrics`: stores the batch loss in `self.loss` and feeds
`(outputs, targets)` to the accuracy accumulator. -/
def MyUnit.update_metrics (s : MyUnit) (data : Batch) (loss : TExpr)
    (outputs : TExpr) : MyUnit :=
  { s with loss := some loss,
           train_accuracy := s.train_accuracy.update outputs data.2 }

/-- `MyUnit.log_metrics`: logs `self.loss` under "loss" and
`train_accuracy.compute()` under "accuracy" at the given step. -/
def MyUnit.log_metrics (s : MyUnit) (step : Int) : MyUnit :=
  { s with logs := s.logs ++
      [("loss", logVal s.loss, step),
       ("accuracy", LogValue.accuracy s.train_accuracy.pending, step)] }

/-- `MyUnit.on_train_epoch_end`: after delegating to the framework's
`super().on_train_epoch_end(state)` (which does not touch the unit's own
fields), resets the accuracy accumulator. -/
def MyUnit.on_train_epoch_end (s : MyUnit) : MyUnit :=
  { s with train_accuracy := s.train_accuracy.reset }

/-- `MyUnit.eval_step`: runs the module on the (device-copied) inputs and logs
the evaluation loss at the evaluation step count.  It does not touch
`self.loss` or the accumulator. -/
def MyUnit.eval_step (s : MyUnit) (data : Batch) (stepCount : Int) : MyUnit :=
  { s with logs := s.logs ++
      [("evaluation loss",
        LogValue.tensor (TExpr.nllLoss (Net.forward data.1) data.2),
        stepCount)] }

/-- One invocation of an overridden `MyUnit` method (the operations of the
unit).  `configure_optimizers_and_lr_scheduler` and `compute_loss` construct
or return values without touching the unit's mutable fields. -/
inductive UnitOp where
  | updateMetrics (data : Batch) (loss : TExpr) (outputs : TExpr)
  | logMetrics (step : Int)
  | onTrainEpochEnd
  | evalStep (data : Batch) (stepCount : Int)
  | computeLoss (data : Batch)
  | configureOptimizers

/-- Dispatch one method invocation to its state-transition function. -/
def MyUnit.applyOp (s : MyUnit) : UnitOp → MyUnit
  | UnitOp.updateMetrics data loss outputs => s.update_metrics data loss outputs
  | UnitOp.logMetrics step => s.log_metrics step
  | UnitOp.onTrainEpochEnd => s.on_train_epoch_end
  | UnitOp.evalStep data stepCount => s.eval_step data stepCount
  | UnitOp.computeLoss _ => s
  | UnitOp.configureOptimizers => s

/-- Run a sequence of method invocations from a starting state. -/
def MyUnit.runOps (s : MyUnit) (ops : List UnitOp) : MyUnit :=
  ops.foldl MyUnit.applyOp s

/-- How many of the invocations in a trace are `on_train_epoch_end`. -/
def countEpochEnds : List UnitOp → Nat
  | [] => 0
  | UnitOp.onTrainEpochEnd :: ops => countEpochEnds ops + 1
  | _ :: ops => countEpochEnds ops

/-- The loss a variable would hold after a trace if it started at `cur` and
were overwritten exactly by each `update_metrics` invocation's loss. -/
def lastUpdateLossAux (cur : Option TExpr) : List UnitOp → Option TExpr
  | [] => cur
  | UnitOp.updateMetrics _ loss _ :: ops => lastUpdateLossAux (some loss) ops
  | _ :: ops => lastUpdateLossAux cur ops

/-- The loss of the most recent `update_metrics` invocation in a trace, or
`none` if there has been none. -/
def lastUpdateLoss (ops : List UnitOp) : Option TExpr :=
  lastUpdateLossAux none ops

/-! ## The argument parser (`get_args`) -/

/-- The parsed argument namespace, one field per `add_argument` call, with
Python float defaults read as exact rationals. -/
structure Namespace where
  seed : Int
  batch_size : Int
  test_batch_size : Int
  epochs : Int
  lr : Rat
  gamma : Rat
  save_model : Bool
  log_frequency_steps : Int
  precision : Option String
  eval_max_steps_per_epoch : Int
deriving DecidableEq

/-- The defaults declared by the ten `add_argument` calls. -/
def defaultNamespace : Namespace :=
  { seed := 1
    batch_size := 64
    test_batch_size := 1000
    epochs := 14
    lr := 1.0
    gamma := 0.7
    save_model := false
    log_frequency_steps := 10
    precision := none
    eval_max_steps_per_epoch := 20 }

/-- A parse failure raised by `argparse` (the script installs no handler of
its own, so these propagate). -/
inductive ArgError where
  | unknownArg (tok : String)
  | missingValue (flag : String)
  | badValue (flag value : String)
  | badChoice (flag value : String)
  | explicitValue (flag : String)
deriving DecidableEq

/-- All characters are decimal digits and there is at least one. -/
def allDigits1 (cs : List Char) : Bool :=
  !cs.isEmpty && cs.all Char.isDigit

/-- Numeric value of a digit list (most significant first). -/
def digitsVal (cs : List Char) : Nat :=
  cs.foldl (fun a c => a * 10 + (c.toNat - 48)) 0

/-- Split a character list at the first '.', if any. -/
def splitAtDot : List Char → List Char × Option (List Char)
  | [] => ([], none)
  | c :: cs =>
    if c = '.' then ([], some cs)
    else
      let p := splitAtDot cs
      (c :: p.1, p.2)

/-- Python `int(s)` restricted to an optional sign followed by digits
(`argparse`'s `type=int` conversion). -/
def pyInt? (s : String) : Option Int :=
  match s.data with
  | '-' :: cs => if allDigits1 cs then some (-(digitsVal cs : Int)) else none
  | '+' :: cs => if allDigits1 cs then some (digitsVal cs : Int) else none
  | cs => if allDigits1 cs then some (digitsVal cs : Int) else none

/-- Unsigned decimal literal, with or without a fractional part, as an exact
rational. -/
def pyFloatCore (cs : List Char) : Option Rat :=
  match splitAtDot cs with
  | (ip, none) => if allDigits1 ip then some (digitsVal ip : Rat) else none
  | (ip, some fp) =>
    if ip.isEmpty && fp.isEmpty then none
    else if ip.all Char.isDigit && fp.all Char.isDigit then
      some ((digitsVal ip : Rat) + (digitsVal fp : Rat) / ((10 : Rat) ^ fp.length))
    else none

/-- Python `float(s)` restricted to signed decimal literals (`argparse`'s
`type=float` conversion). -/
def pyFloat? (s : String) : Option Rat :=
  match s.data with
  | '-' :: cs => (pyFloatCore cs).map (fun q => -q)
  | '+' :: cs => pyFloatCore cs
  | cs => pyFloatCore cs

/-- `p` is a prefix of `s` (computable over the character lists, so that the
kernel can evaluate it). -/
def strStartsWith (s p : String) : Bool :=
  p.data.isPrefixOf s.data

/-- Drop the first `n` characters of `s` (computable over the character
lists). -/
def strDrop (s : String) (n : Nat) : String :=
  String.mk (s.data.drop n)

/-- `argparse`'s negative-number shape: a '-' followed by digits, or by
digits, a dot and at least one digit. -/
def isNegativeNumber (s : String) : Bool :=
  match s.data with
  | '-' :: cs =>
    allDigits1 cs ||
      (match splitAtDot cs with
       | (ip, some fp) => ip.all Char.isDigit && allDigits1 fp
       | (_, none) => false)
  | _ => false

/-- Whether `argparse` classifies a token as an option rather than a value: it
starts with '-', is not '-' itself, is not shaped like a negative number, and
contains no space.  A token classified this way is never consumed as the
value of a preceding flag. -/
def optionLikeTok (s : String) : Bool :=
  strStartsWith s "-" && !(s = "-") && !isNegativeNumber s &&
    !(s.data.contains ' ')

/-- The `argparse` loop for the exact parser `get_args` builds: the ten
options in the order of their `add_argument` calls.  Every token is either
one of the declared long options (given a value by the following token, or
inline after `=`), or a parse error.  A following token classified as an
option is never consumed as a value (`missingValue`, argparse's "expected one
argument"); a `store_true` flag given an inline value is an error; any other
token is unrecognized. -/
def parseLoop : List String → Namespace → Except ArgError Namespace
  | [], ns => Except.ok ns
  | a :: rest, ns =>
    if a = "--seed" then
      match rest with
      | [] => Except.error (ArgError.missingValue "--seed")
      | v :: rest' =>
        if optionLikeTok v then Except.error (ArgError.missingValue "--seed")
        else
          match pyInt? v with
          | some x => parseLoop rest' { ns with seed := x }
          | none => Except.error (ArgError.badValue "--seed" v)
    else if strStartsWith a "--seed=" then
      match pyInt? (strDrop a "--seed=".length) with
      | some x => parseLoop rest { ns with seed := x }
      | none => Except.error (ArgError.badValue "--seed" (strDrop a "--seed=".length))
    else if a = "--batch-size" then
      match rest with
      | [] => Except.error (ArgError.missingValue "--batch-size")
      | v :: rest' =>
        if optionLikeTok v then Except.error (ArgError.missingValue "--batch-size")
        else
          match pyInt? v with
          | some x => parseLoop rest' { ns with batch_size := x }
          | none => Except.error (ArgError.badValue "--batch-size" v)
    else if strStartsWith a "--batch-size=" then
      match pyInt? (strDrop a "--batch-size=".length) with
      | some x => parseLoop rest { ns with batch_size := x }
      | none => Except.error (ArgError.badValue "--batch-size" (strDrop a "--batch-size=".length))
    else if a = "--test-batch-size" then
      match rest with
      | [] => Except.error (ArgError.missingValue "--test-batch-size")
      | v :: rest' =>
        if optionLikeTok v then Except.error (ArgError.missingValue "--test-batch-size")
        else
          match pyInt? v with
          | some x => parseLoop rest' { ns with test_batch_size := x }
          | none => Except.error (ArgError.badValue "--test-batch-size" v)
    else if strStartsWith a "--test-batch-size=" then
      match pyInt? (strDrop a "--test-batch-size=".length) with
      | some x => parseLoop rest { ns with test_batch_size := x }
      | none => Except.error (ArgError.badValue "--test-batch-size" (strDrop a "--test-batch-size=".length))
    else if a = "--epochs" then
      match rest with
      | [] => Except.error (ArgError.missingValue "--epochs")
      | v :: rest' =>
        if optionLikeTok v then Except.error (ArgError.missingValue "--epochs")
        else
          match pyInt? v with
          | some x => parseLoop rest' { ns with epochs := x }
          | none => Except.error (ArgError.badValue "--epochs" v)
    else if strStartsWith a "--epochs=" then
      match pyInt? (strDrop a "--epochs=".length) with
      | some x => parseLoop rest { ns with epochs := x }
      | none => Except.error (ArgError.badValue "--epochs" (strDrop a "--epochs=".length))
    else if a = "--lr" then
      match rest with
      | [] => Except.error (ArgError.missingValue "--lr")
      | v :: rest' =>
        if optionLikeTok v then Except.error (ArgError.missingValue "--lr")
        else
          match pyFloat? v with
          | some x => parseLoop rest' { ns with lr := x }
          | none => Except.error (ArgError.badValue "--lr" v)
    else if strStartsWith a "--lr=" then
      match pyFloat? (strDrop a "--lr=".length) with
      | some x => parseLoop rest { ns with lr := x }
      | none => Except.error (ArgError.badValue "--lr" (strDrop a "--lr=".length))
    else if a = "--gamma" then
      match rest with
      | [] => Except.error (ArgError.missingValue "--gamma")
      | v :: rest' =>
        if optionLikeTok v then Except.error (ArgError.missingValue "--gamma")
        else
          match pyFloat? v with
          | some x => parseLoop rest' { ns with gamma := x }
          | none => Except.error (ArgError.badValue "--gamma" v)
    else if strStartsWith a "--gamma=" then
      match pyFloat? (strDrop a "--gamma=".length) with
      | some x => parseLoop rest { ns with gamma := x }
      | none => Except.error (ArgError.badValue "--gamma" (strDrop a "--gamma=".length))
    else if a = "--save-model" then
      parseLoop rest { ns with save_model := true }
    else if strStartsWith a "--save-model=" then
      Except.error (ArgError.explicitValue "--save-model")
    else if a = "--log-frequency-steps" then
      match rest with
      | [] => Except.error (ArgError.missingValue "--log-frequency-steps")
      | v :: rest' =>
        if optionLikeTok v then Except.error (ArgError.missingValue "--log-frequency-steps")
        else
          match pyInt? v with
          | some x => parseLoop rest' { ns with log_frequency_steps := x }
          | none => Except.error (ArgError.badValue "--log-frequency-steps" v)
    else if strStartsWith a "--log-frequency-steps=" then
      match pyInt? (strDrop a "--log-frequency-steps=".length) with
      | some x => parseLoop rest { ns with log_frequency_steps := x }
      | none => Except.error (ArgError.badValue "--log-frequency-steps" (strDrop a "--log-frequency-steps=".length))
    else if a = "--precision" then
      match rest with
      | [] => Except.error (ArgError.missingValue "--precision")
      | v :: rest' =>
        if optionLikeTok v then Except.error (ArgError.missingValue "--precision")
        else if v = "fp16" ∨ v = "bf16" then
          parseLoop rest' { ns with precision := some v }
        else Except.error (ArgError.badChoice "--precision" v)
    else if strStartsWith a "--precision=" then
      if strDrop a "--precision=".length = "fp16" ∨ strDrop a "--precision=".length = "bf16" then
        parseLoop rest { ns with precision := some (strDrop a "--precision=".length) }
      else Except.error (ArgError.badChoice "--precision" (strDrop a "--precision=".length))
    else if a = "--eval_max_steps_per_epoch" then
      match rest with
      | [] => Except.error (ArgError.missingValue "--eval_max_steps_per_epoch")
      | v :: rest' =>
        if optionLikeTok v then Except.error (ArgError.missingValue "--eval_max_steps_per_epoch")
        else
          match pyInt? v with
          | some x => parseLoop rest' { ns with eval_max_steps_per_epoch := x }
          | none => Except.error (ArgError.badValue "--eval_max_steps_per_epoch" v)
    else if strStartsWith a "--eval_max_steps_per_epoch=" then
      match pyInt? (strDrop a "--eval_max_steps_per_epoch=".length) with
      | some x => parseLoop rest { ns with eval_max_steps_per_epoch := x }
      | none => Except.error (ArgError.badValue "--eval_max_steps_per_epoch" (strDrop a "--eval_max_steps_per_epoch=".length))
    else Except.error (ArgError.unknownArg a)

/-- `get_args`: run the parser from the declared defaults. -/
def get_args (argv : List String) : Except ArgError Namespace :=
  parseLoop argv defaultNamespace

/-! ## `main`: the run configuration it constructs -/

/-- A `torch.device`, identified by its type string ("cpu", "cuda", "mps",
...). -/
structure Device where
  type : String
deriving DecidableEq

/-- Configuration of a `datasets.MNIST` construction: root path, train split
flag, download flag, and the `Normalize` parameters of the transform
(`ToTensor` then `Normalize((0.1307,), (0.3081,))`). -/
structure MNISTConfig where
  root : String
  train : Bool
  download : Bool
  normalize_mean : Rat
  normalize_std : Rat
deriving DecidableEq

/-- Configuration of a `DataLoader` construction. -/
structure DataLoaderConfig where
  batch_size : Int
  pin_memory : Bool
deriving DecidableEq

/-- The keyword arguments `main` hands to the `MyUnit` constructor (beyond
the logger and the accumulator): the unit's own `lr`/`gamma` and the
`AutoUnit` kwargs. -/
structure MyUnitConfig where
  lr : Rat
  gamma : Rat
  strategy : String
  device : Device
  log_frequency_steps : Int
  precision : Option String
  gradient_accumulation_steps : Int
  detect_anomaly : Bool
  clip_grad_norm : Rat
deriving DecidableEq

/-- The arguments `main` hands to `init_fit_state`.  The framework's
`max_eval_steps_per_epoch` parameter defaults to `None` (no cap) when the
caller does not pass it; `main` passes only the two dataloaders and
`max_epochs`. -/
structure FitStateConfig where
  max_epochs : Int
  max_eval_steps_per_epoch : Option Int
deriving DecidableEq

/-- Everything `main` constructs for one run. `saved_model_path` is the path
a serialized `state_dict` is written to after `fit`, if any. -/
structure RunConfig where
  seed : Int
  train_dataset : MNISTConfig
  eval_dataset : MNISTConfig
  train_dataloader : DataLoaderConfig
  eval_dataloader : DataLoaderConfig
  unit : MyUnitConfig
  fit_state : FitStateConfig
  saved_model_path : Option String
deriving DecidableEq

/-- `main`, as a function from the argument vector and the device returned by
`init_from_env` to the run configuration (named `Mnist.main` because Lean
reserves the top-level name `main` for entry points): it returns the run
configuration `main` constructs (or the uncaught
`argparse` failure).  The `tempfile.mkdtemp()` logger directory and the
printed timer summary are effects outside the configuration and are not
recorded. -/
def Mnist.main (argv : List String) (envDevice : Device) : Except ArgError RunConfig :=
  match get_args argv with
  | Except.error e => Except.error e
  | Except.ok args =>
    let device := if envDevice.type = "mps" then { type := "cpu" } else envDevice
    let on_cuda := device.type = "cuda"
    Except.ok
      { seed := args.seed
        train_dataset :=
          { root := "../data", train := true, download := true
            normalize_mean := 0.1307, normalize_std := 0.3081 }
        eval_dataset :=
          { root := "../data", train := false, download := false
            normalize_mean := 0.1307, normalize_std := 0.3081 }
        train_dataloader := { batch_size := args.batch_size, pin_memory := on_cuda }
        eval_dataloader := { batch_size := args.test_batch_size, pin_memory := on_cuda }
        unit :=
          { lr := args.lr
            gamma := args.gamma
            strategy := "ddp"
            device := device
            log_frequency_steps := args.log_frequency_steps
            precision := args.precision
            gradient_accumulation_steps := 4
            detect_anomaly := true
            clip_grad_norm := 1.0 }
        fit_state := { max_epochs := args.epochs, max_eval_steps_per_epoch := none }
        saved_model_path := if args.save_model then some "mnist_cnn.pt" else none }

/-! ## Concrete run configurations used as witnesses -/

/-- The run configuration `main` constructs for an empty argument vector on a
CPU device. -/
def cfgDefaultCpu : RunConfig :=
  { seed := 1
    train_dataset :=
      { root := "../data", train := true, download := true
        normalize_mean := 0.1307, normalize_std := 0.3081 }
    eval_dataset :=
      { root := "../data", train := false, download := false
        normalize_mean := 0.1307, normalize_std := 0.3081 }
    train_dataloader := { batch_size := 64, pin_memory := false }
    eval_dataloader := { batch_size := 1000, pin_memory := false }
    unit :=
      { lr := 1.0, gamma := 0.7, strategy := "ddp", device := { type := "cpu" }
        log_frequency_steps := 10, precision := none
        gradient_accumulation_steps := 4, detect_anomaly := true
        clip_grad_norm := 1.0 }
    fit_state := { max_epochs := 14, max_eval_steps_per_epoch := none }
    saved_model_path := none }

/-- The same run on a CUDA device: both loaders pin memory. -/
def cfgDefaultCuda : RunConfig :=
  { cfgDefaultCpu with
      train_dataloader := { batch_size := 64, pin_memory := true }
      eval_dataloader := { batch_size := 1000, pin_memory := true }
      unit := { cfgDefaultCpu.unit with device := { type := "cuda" } } }

/-- The run configuration for `--save-model` on a CPU device. -/
def cfgSaveModel : RunConfig :=
  { cfgDefaultCpu with saved_model_path := some "mnist_cnn.pt" }
/-- Helper: a token consumable as an option value is never the
`--save-model` token (which `argparse` classifies as an option). -/
theorem value_ne_save_model (v : String) (hv : optionLikeTok v = false) :
    ¬ (("--save-model" : String) = v) := by
  intro he
  rw [← he] at hv
  exact absurd hv (by decide)

/-- Helper: a token starting with `"<flag>="` is not the `--save-model`
token, for any of the parser's flags. -/
theorem startsWith_ne_save_model (p a : String) (h : strStartsWith a p = true)
    (hp : strStartsWith "--save-model" p = false) :
    ¬ (("--save-model" : String) = a) := by
  intro he
  rw [← he] at h
  rw [h] at hp
  exact Bool.noConfusion hp

/-- In any successful parse, the parsed `save_model` field is true exactly
when it started true or the exact token `--save-model` occurs in the
argument vector (the option token is never consumed as a value, so every
occurrence is processed as the flag). -/
theorem parseLoop_save_model (n : Nat) : ∀ (argv : List String),
    argv.length ≤ n → ∀ (ns ns' : Namespace),
    parseLoop argv ns = Except.ok ns' →
    ns'.save_model = (ns.save_model || decide ("--save-model" ∈ argv)) := by
  induction n with
  | zero =>
    intro argv hlen ns ns' h
    have hnil : argv = [] := List.length_eq_zero.mp (Nat.le_zero.mp hlen)
    subst hnil
    injection h with h
    subst h
    simp
  | succ n ih =>
    intro argv hlen ns ns' h
    cases argv with
    | nil =>
      injection h with h
      subst h
      simp
    | cons a rest =>
      rw [parseLoop.eq_def] at h
      simp only [] at h
      by_cases h0a : a = "--seed"
      · rw [if_pos h0a] at h
        subst h0a
        split at h
        · exact Except.noConfusion h
        · rename_i v rest2
          split at h
          · exact Except.noConfusion h
          · rename_i hv
            split at h
            · rename_i num hc
              have hlen2 : rest2.length ≤ n := by
                simp only [List.length_cons] at hlen
                omega
              rw [ih rest2 hlen2 _ _ h]
              have hnv : ¬ (("--save-model" : String) = v) :=
                value_ne_save_model v (by simpa using hv)
              simp [List.mem_cons, hnv]
            · exact Except.noConfusion h
      · rw [if_neg h0a] at h
        by_cases h0b : strStartsWith a "--seed=" = true
        · rw [if_pos h0b] at h
          split at h
          · rename_i num hc
            have hlen2 : rest.length ≤ n := by
              simp only [List.length_cons] at hlen
              omega
            rw [ih rest hlen2 _ _ h]
            have hna : ¬ (("--save-model" : String) = a) :=
              startsWith_ne_save_model "--seed=" a h0b (by decide)
            simp [List.mem_cons, hna]
          · exact Except.noConfusion h
        · rw [if_neg h0b] at h
          by_cases h1a : a = "--batch-size"
          · rw [if_pos h1a] at h
            subst h1a
            split at h
            · exact Except.noConfusion h
            · rename_i v rest2
              split at h
              · exact Except.noConfusion h
              · rename_i hv
                split at h
                · rename_i num hc
                  have hlen2 : rest2.length ≤ n := by
                    simp only [List.length_cons] at hlen
                    omega
                  rw [ih rest2 hlen2 _ _ h]
                  have hnv : ¬ (("--save-model" : String) = v) :=
                    value_ne_save_model v (by simpa using hv)
                  simp [List.mem_cons, hnv]
                · exact Except.noConfusion h
          · rw [if_neg h1a] at h
            by_cases h1b : strStartsWith a "--batch-size=" = true
            · rw [if_pos h1b] at h
              split at h
              · rename_i num hc
                have hlen2 : rest.length ≤ n := by
                  simp only [List.length_cons] at hlen
                  omega
                rw [ih rest hlen2 _ _ h]
                have hna : ¬ (("--save-model" : String) = a) :=
                  startsWith_ne_save_model "--batch-size=" a h1b (by decide)
                simp [List.mem_cons, hna]
              · exact Except.noConfusion h
            · rw [if_neg h1b] at h
              by_cases h2a : a = "--test-batch-size"
              · rw [if_pos h2a] at h
                subst h2a
                split at h
                · exact Except.noConfusion h
                · rename_i v rest2
                  split at h
                  · exact Except.noConfusion h
                  · rename_i hv
                    split at h
                    · rename_i num hc
                      have hlen2 : rest2.length ≤ n := by
                        simp only [List.length_cons] at hlen
                        omega
                      rw [ih rest2 hlen2 _ _ h]
                      have hnv : ¬ (("--save-model" : String) = v) :=
                        value_ne_save_model v (by simpa using hv)
                      simp [List.mem_cons, hnv]
                    · exact Except.noConfusion h
              · rw [if_neg h2a] at h
                by_cases h2b : strStartsWith a "--test-batch-size=" = true
                · rw [if_pos h2b] at h
                  split at h
                  · rename_i num hc
                    have hlen2 : rest.length ≤ n := by
                      simp only [List.length_cons] at hlen
                      omega
                    rw [ih rest hlen2 _ _ h]
                    have hna : ¬ (("--save-model" : String) = a) :=
                      startsWith_ne_save_model "--test-batch-size=" a h2b (by decide)
                    simp [List.mem_cons, hna]
                  · exact Except.noConfusion h
                · rw [if_neg h2b] at h
                  by_cases h3a : a = "--epochs"
                  · rw [if_pos h3a] at h
                    subst h3a
                    split at h
                    · exact Except.noConfusion h
                    · rename_i v rest2
                      split at h
                      · exact Except.noConfusion h
                      · rename_i hv
                        split at h
                        · rename_i num hc
                          have hlen2 : rest2.length ≤ n := by
                            simp only [List.length_cons] at hlen
                            omega
                          rw [ih rest2 hlen2 _ _ h]
                          have hnv : ¬ (("--save-model" : String) = v) :=
                            value_ne_save_model v (by simpa using hv)
                          simp [List.mem_cons, hnv]
                        · exact Except.noConfusion h
                  · rw [if_neg h3a] at h
                    by_cases h3b : strStartsWith a "--epochs=" = true
                    · rw [if_pos h3b] at h
                      split at h
                      · rename_i num hc
                        have hlen2 : rest.length ≤ n := by
                          simp only [List.length_cons] at hlen
                          omega
                        rw [ih rest hlen2 _ _ h]
                        have hna : ¬ (("--save-model" : String) = a) :=
                          startsWith_ne_save_model "--epochs=" a h3b (by decide)
                        simp [List.mem_cons, hna]
                      · exact Except.noConfusion h
                    · rw [if_neg h3b] at h
                      by_cases h4a : a = "--lr"
                      · rw [if_pos h4a] at h
                        subst h4a
                        split at h
                        · exact Except.noConfusion h
                        · rename_i v rest2
                          split at h
                          · exact Except.noConfusion h
                          · rename_i hv
                            split at h
                            · rename_i num hc
                              have hlen2 : rest2.length ≤ n := by
                                simp only [List.length_cons] at hlen
                                omega
                              rw [ih rest2 hlen2 _ _ h]
                              have hnv : ¬ (("--save-model" : String) = v) :=
                                value_ne_save_model v (by simpa using hv)
                              simp [List.mem_cons, hnv]
                            · exact Except.noConfusion h
                      · rw [if_neg h4a] at h
                        by_cases h4b : strStartsWith a "--lr=" = true
                        · rw [if_pos h4b] at h
                          split at h
                          · rename_i num hc
                            have hlen2 : rest.length ≤ n := by
                              simp only [List.length_cons] at hlen
                              omega
                            rw [ih rest hlen2 _ _ h]
                            have hna : ¬ (("--save-model" : String) = a) :=
                              startsWith_ne_save_model "--lr=" a h4b (by decide)
                            simp [List.mem_cons, hna]
                          · exact Except.noConfusion h
                        · rw [if_neg h4b] at h
                          by_cases h5a : a = "--gamma"
                          · rw [if_pos h5a] at h
                            subst h5a
                            split at h
                            · exact Except.noConfusion h
                            · rename_i v rest2
                              split at h
                              · exact Except.noConfusion h
                              · rename_i hv
                                split at h
                                · rename_i num hc
                                  have hlen2 : rest2.length ≤ n := by
                                    simp only [List.length_cons] at hlen
                                    omega
                                  rw [ih rest2 hlen2 _ _ h]
                                  have hnv : ¬ (("--save-model" : String) = v) :=
                                    value_ne_save_model v (by simpa using hv)
                                  simp [List.mem_cons, hnv]
                                · exact Except.noConfusion h
                          · rw [if_neg h5a] at h
                            by_cases h5b : strStartsWith a "--gamma=" = true
                            · rw [if_pos h5b] at h
                              split at h
                              · rename_i num hc
                                have hlen2 : rest.length ≤ n := by
                                  simp only [List.length_cons] at hlen
                                  omega
                                rw [ih rest hlen2 _ _ h]
                                have hna : ¬ (("--save-model" : String) = a) :=
                                  startsWith_ne_save_model "--gamma=" a h5b (by decide)
                                simp [List.mem_cons, hna]
                              · exact Except.noConfusion h
                            · rw [if_neg h5b] at h
                              by_cases h6a : a = "--save-model"
                              · rw [if_pos h6a] at h
                                subst h6a
                                have hlen2 : rest.length ≤ n := by
                                  simp only [List.length_cons] at hlen
                                  omega
                                rw [ih rest hlen2 _ _ h]
                                simp
                              · rw [if_neg h6a] at h
                                by_cases h6b : strStartsWith a "--save-model=" = true
                                · rw [if_pos h6b] at h
                                  exact Except.noConfusion h
                                · rw [if_neg h6b] at h
                                  by_cases h7a : a = "--log-frequency-steps"
                                  · rw [if_pos h7a] at h
                                    subst h7a
                                    split at h
                                    · exact Except.noConfusion h
                                    · rename_i v rest2
                                      split at h
                                      · exact Except.noConfusion h
                                      · rename_i hv
                                        split at h
                                        · rename_i num hc
                                          have hlen2 : rest2.length ≤ n := by
                                            simp only [List.length_cons] at hlen
                                            omega
                                          rw [ih rest2 hlen2 _ _ h]
                                          have hnv : ¬ (("--save-model" : String) = v) :=
                                            value_ne_save_model v (by simpa using hv)
                                          simp [List.mem_cons, hnv]
                                        · exact Except.noConfusion h
                                  · rw [if_neg h7a] at h
                                    by_cases h7b : strStartsWith a "--log-frequency-steps=" = true
                                    · rw [if_pos h7b] at h
                                      split at h
                                      · rename_i num hc
                                        have hlen2 : rest.length ≤ n := by
                                          simp only [List.length_cons] at hlen
                                          omega
                                        rw [ih rest hlen2 _ _ h]
                                        have hna : ¬ (("--save-model" : String) = a) :=
                                          startsWith_ne_save_model "--log-frequency-steps=" a h7b (by decide)
                                        simp [List.mem_cons, hna]
                                      · exact Except.noConfusion h
                                    · rw [if_neg h7b] at h
                                      by_cases h8a : a = "--precision"
                                      · rw [if_pos h8a] at h
                                        subst h8a
                                        split at h
                                        · exact Except.noConfusion h
                                        · rename_i v rest2
                                          split at h
                                          · exact Except.noConfusion h
                                          · rename_i hv
                                            split at h
                                            · have hlen2 : rest2.length ≤ n := by
                                                simp only [List.length_cons] at hlen
                                                omega
                                              rw [ih rest2 hlen2 _ _ h]
                                              have hnv : ¬ (("--save-model" : String) = v) :=
                                                value_ne_save_model v (by simpa using hv)
                                              simp [List.mem_cons, hnv]
                                            · exact Except.noConfusion h
                                      · rw [if_neg h8a] at h
                                        by_cases h8b : strStartsWith a "--precision=" = true
                                        · rw [if_pos h8b] at h
                                          split at h
                                          · have hlen2 : rest.length ≤ n := by
                                              simp only [List.length_cons] at hlen
                                              omega
                                            rw [ih rest hlen2 _ _ h]
                                            have hna : ¬ (("--save-model" : String) = a) :=
                                              startsWith_ne_save_model "--precision=" a h8b (by decide)
                                            simp [List.mem_cons, hna]
                                          · exact Except.noConfusion h
                                        · rw [if_neg h8b] at h
                                          by_cases h9a : a = "--eval_max_steps_per_epoch"
                                          · rw [if_pos h9a] at h
                                            subst h9a
                                            split at h
                                            · exact Except.noConfusion h
                                            · rename_i v rest2
                                              split at h
                                              · exact Except.noConfusion h
                                              · rename_i hv
                                                split at h
                                                · rename_i num hc
                                                  have hlen2 : rest2.length ≤ n := by
                                                    simp only [List.length_cons] at hlen
                                                    omega
                                                  rw [ih rest2 hlen2 _ _ h]
                                                  have hnv : ¬ (("--save-model" : String) = v) :=
                                                    value_ne_save_model v (by simpa using hv)
                                                  simp [List.mem_cons, hnv]
                                                · exact Except.noConfusion h
                                          · rw [if_neg h9a] at h
                                            by_cases h9b : strStartsWith a "--eval_max_steps_per_epoch=" = true
                                            · rw [if_pos h9b] at h
                                              split at h
                                              · rename_i num hc
                                                have hlen2 : rest.length ≤ n := by
                                                  simp only [List.length_cons] at hlen
                                                  omega
                                                rw [ih rest hlen2 _ _ h]
                                                have hna : ¬ (("--save-model" : String) = a) :=
                                                  startsWith_ne_save_model "--eval_max_steps_per_epoch=" a h9b (by decide)
                                                simp [List.mem_cons, hna]
                                              · exact Except.noConfusion h
                                            · rw [if_neg h9b] at h
                                              exact Except.noConfusion h

/-! ## Auxiliary lemmas about the unit's state -/

/-- The `loss` field after a trace is the accumulator semantics of
`lastUpdateLossAux` started at the current `loss`. -/
theorem runOps_loss (s : MyUnit) (ops : List UnitOp) :
    (s.runOps ops).loss = lastUpdateLossAux s.loss ops := by
  induction ops generalizing s with
  | nil => rfl
  | cons op ops ih =>
    have hstep : s.runOps (op :: ops) = (s.applyOp op).runOps ops := rfl
    rw [hstep, ih]
    cases op <;> rfl

/-! ## The claims -/

/-- C1: the claim says the parsed `--eval_max_steps_per_epoch` value is
passed into the configuration of the fit run.  The code parses the flag
(here: value 5) but `main` never passes it on: the `init_fit_state` call
receives only the dataloaders and `max_epochs`, so the evaluation step cap
of every constructed run is the framework default `None`, whatever the
argument vector said. -/
theorem eval_max_steps_flag_dropped :
    get_args ["--eval_max_steps_per_epoch", "5"] =
      Except.ok { defaultNamespace with eval_max_steps_per_epoch := 5 } ∧
    (∀ (argv : List String) (d : Device) (cfg : RunConfig),
      Mnist.main argv d = Except.ok cfg →
      cfg.fit_state.max_eval_steps_per_epoch = none) := by
  constructor
  · rfl
  · intro argv d cfg h
    unfold Mnist.main at h
    cases hga : get_args argv with
    | error e => rw [hga] at h; cases h
    | ok args =>
      rw [hga] at h
      injection h with h
      subst h
      rfl

/-- C1 witness: at the failing input `--eval_max_steps_per_epoch 5` on a CPU
device, the constructed fit configuration carries no evaluation step cap. -/
theorem eval_max_steps_flag_dropped_witness :
    cfgDefaultCpu.fit_state.max_eval_steps_per_epoch = none :=
  eval_max_steps_flag_dropped.2 ["--eval_max_steps_per_epoch", "5"]
    { type := "cpu" } cfgDefaultCpu rfl

/-- C2: across any trace of `MyUnit` method invocations, the accumulator's
reset count grows by exactly the number of `on_train_epoch_end` invocations:
each `on_train_epoch_end` resets `train_accuracy` exactly once, and no other
operation of the unit resets it. -/
theorem train_accuracy_reset_exactly_once (s : MyUnit) (ops : List UnitOp) :
    (s.runOps ops).train_accuracy.resets =
      s.train_accuracy.resets + countEpochEnds ops := by
  induction ops generalizing s with
  | nil => simp [MyUnit.runOps, countEpochEnds]
  | cons op ops ih =>
    have hstep : s.runOps (op :: ops) = (s.applyOp op).runOps ops := rfl
    rw [hstep, ih]
    cases op <;>
      simp +arith [MyUnit.applyOp, MyUnit.update_metrics, MyUnit.log_metrics,
        MyUnit.on_train_epoch_end, MyUnit.eval_step, MulticlassAccuracy.update,
        MulticlassAccuracy.reset, countEpochEnds]

/-- C3: in every completed run, the serialized model parameter file is
written to the fixed relative path "mnist_cnn.pt" exactly when the
`--save-model` token occurs in the argument vector, and no model file is
written when it is absent. -/
theorem model_saved_iff_save_model_flag (argv : List String) (d : Device)
    (cfg : RunConfig) (h : Mnist.main argv d = Except.ok cfg) :
    (cfg.saved_model_path = some "mnist_cnn.pt" ↔ "--save-model" ∈ argv) ∧
    ("--save-model" ∉ argv → cfg.saved_model_path = none) := by
  unfold Mnist.main at h
  cases hga : get_args argv with
  | error e => rw [hga] at h; cases h
  | ok args =>
    rw [hga] at h
    injection h with h
    subst h
    have hsm : args.save_model =
        (defaultNamespace.save_model || decide ("--save-model" ∈ argv)) :=
      parseLoop_save_model argv.length argv (le_refl _) defaultNamespace args hga
    constructor
    · by_cases hmem : "--save-model" ∈ argv <;> simp [hsm, hmem, defaultNamespace]
    · intro hmem
      simp [hsm, hmem, defaultNamespace]

/-- C3 witness: with argument vector `["--save-model"]` on a CPU device the
model file is written to "mnist_cnn.pt". -/
theorem model_saved_iff_save_model_flag_witness :
    (cfgSaveModel.saved_model_path = some "mnist_cnn.pt" ↔
      "--save-model" ∈ ["--save-model"]) ∧
    ("--save-model" ∉ ["--save-model"] → cfgSaveModel.saved_model_path = none) :=
  model_saved_iff_save_model_flag ["--save-model"] { type := "cpu" }
    cfgSaveModel rfl

/-- C4 counterexample: the claim says the unit's device is exactly the device
returned by `init_from_env`; but when `init_from_env` returns an "mps"
device, `main` gives the unit the CPU device instead. -/
theorem unit_device_differs_from_env_on_mps :
    (Mnist.main [] { type := "mps" }).map (fun c => c.unit.device) =
      Except.ok { type := "cpu" } ∧
    ({ type := "cpu" } : Device) ≠ { type := "mps" } :=
  ⟨rfl, by decide⟩

/-- C4 (amended): `main` constructs the unit with the configuration string
`strategy="ddp"`, and the device the unit is given is the one returned by
`init_from_env`, except that an "mps" device is replaced by the CPU
device. -/
theorem unit_strategy_ddp_device_env_unless_mps (argv : List String)
    (d : Device) (cfg : RunConfig) (h : Mnist.main argv d = Except.ok cfg) :
    cfg.unit.strategy = "ddp" ∧
    cfg.unit.device = (if d.type = "mps" then { type := "cpu" } else d) := by
  unfold Mnist.main at h
  cases hga : get_args argv with
  | error e => rw [hga] at h; cases h
  | ok args =>
    rw [hga] at h
    injection h with h
    subst h
    exact ⟨rfl, rfl⟩

/-- C4 witness: for the empty argument vector and an "mps" environment
device, the unit is constructed with strategy "ddp" and the CPU device. -/
theorem unit_strategy_ddp_device_env_unless_mps_witness :
    cfgDefaultCpu.unit.strategy = "ddp" ∧
    cfgDefaultCpu.unit.device =
      (if (Device.mk "mps").type = "mps" then { type := "cpu" }
       else Device.mk "mps") :=
  unit_strategy_ddp_device_env_unless_mps [] { type := "mps" } cfgDefaultCpu rfl

/-- C5: the script installs no exception handler: every `argparse` failure
raised while parsing the argument vector propagates out of `main`
unchanged. -/
theorem argparse_failures_propagate (argv : List String) (d : Device)
    (e : ArgError) (h : get_args argv = Except.error e) :
    Mnist.main argv d = Except.error e := by
  unfold Mnist.main
  rw [h]

/-- C5 witness: `--precision fp32` fails the choices check and the failure
surfaces uncaught out of `main`. -/
theorem argparse_failures_propagate_witness :
    Mnist.main ["--precision", "fp32"] { type := "cpu" } =
      Except.error (ArgError.badChoice "--precision" "fp32") :=
  argparse_failures_propagate ["--precision", "fp32"] { type := "cpu" }
    (ArgError.badChoice "--precision" "fp32") rfl

/-- C6: `Net.forward` applies, in order: conv1, ReLU, conv2, ReLU, 2x2
max-pool, dropout1, flatten from dim 1, fc1, ReLU, dropout2, fc2, then
log-softmax over dim 1, and returns the result. -/
theorem net_forward_fixed_layer_sequence (x : TExpr) :
    Net.forward x =
      TExpr.logSoftmax 1 (TExpr.fc2 (TExpr.dropout2 (TExpr.relu (TExpr.fc1
        (TExpr.flatten 1 (TExpr.dropout1 (TExpr.maxPool2d 2 (TExpr.relu
          (TExpr.conv2 (TExpr.relu (TExpr.conv1 x))))))))))) := rfl

/-- C7: parsing an empty argument list yields exactly the documented
defaults. -/
theorem get_args_empty_defaults :
    get_args [] = Except.ok
      { seed := 1, batch_size := 64, test_batch_size := 1000, epochs := 14,
        lr := 1.0, gamma := 0.7, save_model := false,
        log_frequency_steps := 10, precision := none,
        eval_max_steps_per_epoch := 20 } := rfl

/-- C8: `MyUnit.loss` starts as `None` and is assigned only by
`update_metrics`: after any trace it equals the loss of the most recent
`update_metrics` (so `None` if there was none), and a `log_metrics` running
next logs exactly that value under "loss". -/
theorem loss_assigned_only_by_update_metrics (acc : MulticlassAccuracy)
    (ops : List UnitOp) (step : Int) :
    ((MyUnit.init acc).runOps ops).loss = lastUpdateLoss ops ∧
    ((MyUnit.init acc).runOps (ops ++ [UnitOp.logMetrics step])).logs =
      ((MyUnit.init acc).runOps ops).logs ++
        [("loss", logVal (lastUpdateLoss ops), step),
         ("accuracy",
          LogValue.accuracy
            (((MyUnit.init acc).runOps ops).train_accuracy.pending), step)] := by
  constructor
  · exact runOps_loss _ _
  · have h1 : (MyUnit.init acc).runOps (ops ++ [UnitOp.logMetrics step]) =
        (((MyUnit.init acc).runOps ops).applyOp (UnitOp.logMetrics step)) := by
      simp [MyUnit.runOps]
    rw [h1]
    simp [MyUnit.applyOp, MyUnit.log_metrics, runOps_loss, MyUnit.init,
      lastUpdateLoss]

/-- C9: whatever the command line says, `main` constructs `MyUnit` with the
fixed constants `gradient_accumulation_steps=4`, `detect_anomaly=True` and
`clip_grad_norm=1.0`. -/
theorem unit_fixed_training_constants (argv : List String) (d : Device)
    (cfg : RunConfig) (h : Mnist.main argv d = Except.ok cfg) :
    cfg.unit.gradient_accumulation_steps = 4 ∧
    cfg.unit.detect_anomaly = true ∧
    cfg.unit.clip_grad_norm = 1.0 := by
  unfold Mnist.main at h
  cases hga : get_args argv with
  | error e => rw [hga] at h; cases h
  | ok args =>
    rw [hga] at h
    injection h with h
    subst h
    exact ⟨rfl, rfl, rfl⟩

/-- C9 witness: the constants hold in the default CPU run. -/
theorem unit_fixed_training_constants_witness :
    cfgDefaultCpu.unit.gradient_accumulation_steps = 4 ∧
    cfgDefaultCpu.unit.detect_anomaly = true ∧
    cfgDefaultCpu.unit.clip_grad_norm = 1.0 :=
  unit_fixed_training_constants [] { type := "cpu" } cfgDefaultCpu rfl

/-- C10: both dataloaders are constructed with `pin_memory=True` exactly when
the selected device (the one the unit is given) is a CUDA device. -/
theorem pin_memory_iff_cuda_device (argv : List String) (d : Device)
    (cfg : RunConfig) (h : Mnist.main argv d = Except.ok cfg) :
    (cfg.train_dataloader.pin_memory = true ↔ cfg.unit.device.type = "cuda") ∧
    (cfg.eval_dataloader.pin_memory = true ↔ cfg.unit.device.type = "cuda") := by
  unfold Mnist.main at h
  cases hga : get_args argv with
  | error e => rw [hga] at h; cases h
  | ok args =>
    rw [hga] at h
    injection h with h
    subst h
    simp

/-- C10 witness: on a CUDA environment device, both loaders pin memory. -/
theorem pin_memory_iff_cuda_device_witness :
    (cfgDefaultCuda.train_dataloader.pin_memory = true ↔
      cfgDefaultCuda.unit.device.type = "cuda") ∧
    (cfgDefaultCuda.eval_dataloader.pin_memory = true ↔
      cfgDefaultCuda.unit.device.type = "cuda") :=
  pin_memory_iff_cuda_device [] { type := "cuda" } cfgDefaultCuda rfl
